import Mathlib

/-!
Verification of the Fritzing simulation orchestrator and diagnostic engine
(`src/simulation/simulator.cpp`) against its natural-language specification.

The C++ code is shallowly embedded: the ngspice engine is a parameter
mapping a vector name to its list of samples (empty list when the vector is
unknown, mirroring `NgSpiceSimulator::getVecInfo`), the unit-conversion
layer (`TextUtils::convertFromPowerPrefix`, which lives outside this
repository's source set) is a parameter mapping a textual value and a unit
symbol to a rational magnitude, and doubles are modelled as rationals.
Fallible code (C++ `throw`) is modelled with `Except`; reads of
uninitialized local pointers are modelled as an explicit
`SimError.undefinedBehavior` outcome.
-/

namespace Fritzing

/-- The ngspice engine's `vectorValues` query: a vector name is mapped to a
sequence of samples; an unknown vector yields the empty sequence. -/
def Engine : Type := String → List ℚ

/-- The unit-conversion layer `TextUtils::convertFromPowerPrefix`
(textual value, unit symbol) ↦ numeric magnitude.  Its implementation is
outside `src/`, so theorems are parametric in it. -/
def Convert : Type := String → String → ℚ

/-- A connector (pin) as the simulator sees it: the shared name and shared
description used by role-pin lookups, whether wires are attached
(`connectedToWires`), and its net index from `m_connector2netHash`
(a `QHash<.,int>::value` lookup defaults to 0 for unmapped pins). -/
structure ConnectorItem where
  sharedName : String
  sharedDescription : String
  wired : Bool
  net : Nat
deriving DecidableEq

/-- A component instance (`ItemBase`).  `ledClass` records whether the
item is of the C++ class `LED` (the `dynamic_cast<LED *>` in `updateLED`);
`props` is the property bag read by `getProperty` (missing key reads as the
empty string); `propDefs` is the (name, unit-symbol) table consulted by
`getSymbol`, coming from the external part metadata. -/
structure Part where
  title : String
  family : String
  spice : String
  ledClass : Bool
  props : List (String × String)
  propDefs : List (String × String)
  pins : List ConnectorItem

/-- Errors a diagnostic step can produce: `thrown` models a C++ `throw`
(uncaught anywhere in `Simulator::simulate`), `undefinedBehavior` models a read of an
uninitialized local pin pointer (undefined behavior in the source). -/
inductive SimError where
  | thrown (msg : String)
  | undefinedBehavior (site : String)
deriving DecidableEq

/-- Overlay requests emitted by the per-family rules. -/
inductive Overlay where
  | smoke
  | brightness (r : ℚ)
  | screen (msg : String)
  | rotateCW
  | rotateCCW
deriving DecidableEq

/-- Whether `pat` is a leading segment of `l`. -/
def charsStartWith : List Char → List Char → Bool
  | [], _ => true
  | _ :: _, [] => false
  | a :: as, b :: bs => a == b && charsStartWith as bs

/-- Whether `pat` occurs contiguously inside `l`. -/
def charsHaveInfix : List Char → List Char → Bool
  | [], pat => pat.isEmpty
  | c :: tl, pat => charsStartWith pat (c :: tl) || charsHaveInfix tl pat

/-- QString::contains (case sensitive; callers lowercase the haystack first
where the source does). -/
def qcontains (s sub : String) : Bool := charsHaveInfix s.toList sub.toList

/-- QString::toLower, character by character (kernel-evaluable, unlike
`String.toLower`). -/
def strToLower (s : String) : String := ⟨s.toList.map Char.toLower⟩

/-- ItemBase::getProperty: property-bag lookup, empty string when absent. -/
def getProperty (part : Part) (name : String) : String :=
  ((part.props.find? (fun kv => kv.1 == name)).map (·.2)).getD ""

/-- Simulator::getSymbol: first property definition whose name matches
case-insensitively; empty string when none does. -/
def getSymbol (part : Part) (property : String) : String :=
  ((part.propDefs.find? (fun pd => strToLower pd.1 == strToLower property)).map (·.2)).getD ""

/-- Simulator::getVectorValueOrDefault: first sample of the named engine
vector, or the default when the vector is empty/unknown. -/
def getVectorValueOrDefault (engine : Engine) (vecName : String) (defaultValue : ℚ) : ℚ :=
  match engine vecName with
  | [] => defaultValue
  | x :: _ => x

/-- The engine voltage-vector name `v(<net-index>)` built by
Simulator::calculateVoltage. -/
def voltageVecName (net : Nat) : String := "v(" ++ toString net ++ ")"

/-- Simulator::calculateVoltage: net indices of the two connectors are
looked up; a net index of 0 contributes potential 0 without an engine
query; any other net's potential is the first sample of `v(<net-index>)`
or 0.0 when absent.  Returns `V(c0) − V(c1)`. -/
def calculateVoltage (engine : Engine) (c0 c1 : ConnectorItem) : ℚ :=
  let net0 := c0.net
  let net1 := c1.net
  let volt0 : ℚ := if net0 ≠ 0 then getVectorValueOrDefault engine (voltageVecName net0) 0 else 0
  let volt1 : ℚ := if net1 ≠ 0 then getVectorValueOrDefault engine (voltageVecName net1) 0 else 0
  volt0 - volt1

/-- C1: calculateVoltage returns V(a) − V(b): a connector on net 0
contributes potential 0 (independently of the engine, which is never
queried for it — visible in the guard of `calculateVoltage`), any other
net's potential is the first sample of `v(<net-index>)` or 0 when that
vector is absent; two pins on the same net always yield exactly 0. -/
theorem C1_calculateVoltage (engine : Engine) (c0 c1 : ConnectorItem) :
    calculateVoltage engine c0 c1 =
      (if c0.net = 0 then 0 else (engine (voltageVecName c0.net)).headD 0) -
      (if c1.net = 0 then 0 else (engine (voltageVecName c1.net)).headD 0) ∧
    (c0.net = c1.net → calculateVoltage engine c0 c1 = 0) := by
  have hpot : ∀ c : ConnectorItem,
      (if c.net ≠ 0 then getVectorValueOrDefault engine (voltageVecName c.net) 0 else 0) =
      (if c.net = 0 then 0 else (engine (voltageVecName c.net)).headD 0) := by
    intro c
    by_cases h : c.net = 0
    · simp [h]
    · simp [h, getVectorValueOrDefault]
      cases engine (voltageVecName c.net) <;> rfl
  constructor
  · show (if c0.net ≠ 0 then _ else _) - (if c1.net ≠ 0 then _ else _) = _
    rw [hpot c0, hpot c1]
  · intro hnet
    show (if c0.net ≠ 0 then _ else _) - (if c1.net ≠ 0 then _ else _) = 0
    rw [hnet]
    ring

/-- The largest finite double, `std::numeric_limits<double>::max()`
(DBL_MAX = (2^53 − 1) · 2^971), as an exact rational. -/
def dblMax : ℚ := (2 ^ 53 - 1) * 2 ^ 971

/-- The character class kept by the fallback filter in
Simulator::getMaxPropValue: the regular expression
`[^pnu\x00B5mkMGT^\d.]` removes everything except the engineering prefix
letters, µ, the caret, digits and the decimal point. -/
def keptByFilter (c : Char) : Bool :=
  c ∈ ['p', 'n', 'u', 'µ', 'm', 'k', 'M', 'G', 'T', '^', '.'] || c.isDigit

/-- The fallback stripping applied when the unit symbol is unknown. -/
def removeNonMagnitudeChars (s : String) : String :=
  ⟨s.toList.filter keptByFilter⟩

/-- Simulator::getMaxPropValue: empty textual value gives
`std::numeric_limits<double>::max()`; otherwise the value is parsed via
the unit-conversion layer, from the raw text when the unit symbol is
known and from the filtered text when it is not. -/
def getMaxPropValue (convert : Convert) (part : Part) (property : String) : ℚ :=
  let propertyStr := getProperty part property
  let symbol := getSymbol part property
  if propertyStr.isEmpty then dblMax
  else if !symbol.isEmpty then convert propertyStr symbol
  else convert (removeNonMagnitudeChars propertyStr) symbol

/-- Modelled from the spec: `maxPropertyValue` as §4.3 words it — it
"returns positive infinity if the property is unset (treated as no
limit)", the parse branches being those of the source.  Used only to
compare the spec's wording with `getMaxPropValue`. -/
def maxPropertyValueSpec (convert : Convert) (part : Part) (property : String) : WithTop ℚ :=
  let propertyStr := getProperty part property
  let symbol := getSymbol part property
  if propertyStr.isEmpty then ⊤
  else if !symbol.isEmpty then (convert propertyStr symbol : ℚ)
  else (convert (removeNonMagnitudeChars propertyStr) symbol : ℚ)

/-- A resistor whose "power" property is unset. -/
def unsetPart : Part :=
  { title := "r1", family := "resistor", spice := "r\x7binstanceTitle\x7d 1 2 100",
    ledClass := false, props := [], propDefs := [], pins := [] }

/-- A trivial stand-in for the unit-conversion layer, used in closed
evaluations where conversion is never reached or irrelevant. -/
def convert0 : Convert := fun _ _ => 0

/-- An engine that knows no vectors. -/
def engine0 : Engine := fun _ => []

/-- C3 counterexample: on an unset property the source returns the largest
finite double, `std::numeric_limits<double>::max()`, which is not the
positive infinity the claim states. -/
theorem C3_counterexample :
    getMaxPropValue convert0 unsetPart "power" = dblMax ∧
    maxPropertyValueSpec convert0 unsetPart "power" = ⊤ ∧
    ((dblMax : WithTop ℚ) ≠ ⊤) := by
  refine ⟨rfl, rfl, ?_⟩
  exact WithTop.coe_ne_top

/-- C3 amended: getMaxPropValue returns the largest finite double (not
positive infinity) when the property's textual value is unset, and
otherwise agrees with the spec's description: the numeric magnitude comes
from the unit-conversion layer, applied to the raw text when the unit
symbol is known and to the filtered text (digits, decimal point, caret and
prefix letters kept) when it is not. -/
theorem C3_getMaxPropValue (convert : Convert) (part : Part) (property : String) :
    ((getProperty part property).isEmpty = true →
      getMaxPropValue convert part property = dblMax ∧
      maxPropertyValueSpec convert part property = ⊤) ∧
    ((getProperty part property).isEmpty = false →
      maxPropertyValueSpec convert part property = (getMaxPropValue convert part property : ℚ)) ∧
    ((getProperty part property).isEmpty = false →
      (getSymbol part property).isEmpty = false →
      getMaxPropValue convert part property =
        convert (getProperty part property) (getSymbol part property)) ∧
    ((getProperty part property).isEmpty = false →
      (getSymbol part property).isEmpty = true →
      getMaxPropValue convert part property =
        convert (removeNonMagnitudeChars (getProperty part property)) (getSymbol part property)) := by
  refine ⟨fun h => ⟨?_, ?_⟩, fun h => ?_, fun h hs => ?_, fun h hs => ?_⟩
  · simp [getMaxPropValue, h]
  · simp [maxPropertyValueSpec, h]
  · cases hs : (getSymbol part property).isEmpty <;>
      simp [getMaxPropValue, maxPropertyValueSpec, h, hs]
  · simp [getMaxPropValue, h, hs]
  · simp [getMaxPropValue, h, hs]

/-- First index at which `pat` occurs in `l` (QString::indexOf). -/
def charsIndexOfSub : List Char → List Char → Option Nat
  | [], pat => if pat.isEmpty then some 0 else none
  | c :: tl, pat =>
    if charsStartWith pat (c :: tl) then some 0
    else (charsIndexOfSub tl pat).map (· + 1)

/-- The placeholder token `{instanceTitle}` looked for inside a part's
spice template. -/
def instanceTitlePlaceholder : String := "\x7binstanceTitle\x7d"

/-- Simulator::getDeviceType: the character immediately preceding the
`{instanceTitle}` placeholder in the part's spice template, lowercased;
a placeholder at position 0 or absent altogether is a thrown error. -/
def getDeviceType (spiceTemplate : String) : Except SimError Char :=
  match charsIndexOfSub spiceTemplate.toList instanceTitlePlaceholder.toList with
  | some index =>
    if index > 0 then
      -- `index > 0` and the match position make `index - 1` in range;
      -- the `.getD ' '` default is unreachable.
      .ok ((spiceTemplate.toList.get? (index - 1)).getD ' ').toLower
    else .error (.thrown "Error getting the device type. The type is not recognized.")
  | none => .error (.thrown "Error getting the device type. The type is not recognized.")

/-- The `[id]`/`[i]` suffix selection of Simulator::getCurrent's switch:
`d` takes `[id]`, the two-terminal linear/source device letters take
`[i]`, anything else is a thrown error. -/
def currentSuffix (deviceType : Char) : Except SimError String :=
  if deviceType = 'd' then .ok "[id]"
  else if deviceType ∈ ['r', 'c', 'l', 'v', 'e', 'f', 'g', 'h', 'i'] then .ok "[i]"
  else .error (.thrown "Error getting the current of the device.The device type is not recognized.")

/-- The `@`-prefixed signal base of Simulator::getCurrent: if the
lowercased instance string already starts with the type-code letter only
`@` is prepended, otherwise `@<type-code>` is (`QString::at(0)` requires a
nonempty string; the `head?` comparison coincides with it in that case). -/
def currentSignalBase (deviceType : Char) (instanceStr : String) : String :=
  if instanceStr.toList.head? = some deviceType then "@" ++ instanceStr
  else "@" ++ String.singleton deviceType ++ instanceStr

/-- The engine signal name built by Simulator::getCurrent: lowercase
instance title plus subpart suffix, the `@`/`@<type-code>` prepend, then
the type-keyed `[id]`/`[i]` suffix; thrown errors of the type-code
derivation and of the suffix switch propagate. -/
def getCurrentName (part : Part) (subpartName : String) : Except SimError String :=
  let instanceStr := strToLower part.title ++ strToLower subpartName
  match getDeviceType part.spice with
  | .error e => .error e
  | .ok deviceType =>
    match currentSuffix deviceType with
    | .error e => .error e
    | .ok suffix => .ok (currentSignalBase deviceType instanceStr ++ suffix)

/-- Simulator::getCurrent: first sample of the built signal vector, 0.0
by default. -/
def getCurrent (engine : Engine) (part : Part) (subpartName : String) : Except SimError ℚ :=
  match getCurrentName part subpartName with
  | .error e => .error e
  | .ok name => .ok (getVectorValueOrDefault engine name 0)

/-- Simulator::getPower: signal `@<lowercase title><subpart>[p]`, first
sample or 0.0. -/
def getPower (engine : Engine) (part : Part) (subpartName : String) : ℚ :=
  getVectorValueOrDefault engine
    ("@" ++ strToLower part.title ++ strToLower subpartName ++ "[p]") 0

/-- Transistor legs, as in Simulator::TransistorLeg (the source spells the
third one EMITER). -/
inductive TransistorLeg where
  | base
  | collector
  | emiter
deriving DecidableEq

/-- Simulator::getTransistorCurrent: the spice name must start with `q`
(case-insensitively), the leg picks the `[ib]`/`[ic]`/`[ie]` suffix. -/
def getTransistorCurrent (engine : Engine) (spicePartName : String) (leg : TransistorLeg) :
    Except SimError ℚ :=
  if (spicePartName.toList.head?.map Char.toLower) ≠ some 'q' then
    .error (.thrown "Error getting the current of a transistor. The device is not a transistor.")
  else
    let suffix := match leg with
      | .base => "[ib]"
      | .collector => "[ic]"
      | .emiter => "[ie]"
    .ok (getVectorValueOrDefault engine ("@" ++ spicePartName ++ suffix) 0)

/-- C9: getCurrent builds the signal name from the type-code letter and
the lowercase title (plus optional subpart), appends `[id]` for type code
`d`, `[i]` for the letters r, c, l, v, e, f, g, h, i, and raises a query
error for every other type-code letter. -/
theorem C9_getCurrentName (part : Part) (subpartName : String) (deviceType : Char)
    (hdt : getDeviceType part.spice = .ok deviceType)
    (_hne : strToLower part.title ++ strToLower subpartName ≠ "") :
    (deviceType = 'd' →
      getCurrentName part subpartName = .ok
        (currentSignalBase deviceType (strToLower part.title ++ strToLower subpartName)
          ++ "[id]")) ∧
    (deviceType ∈ ['r', 'c', 'l', 'v', 'e', 'f', 'g', 'h', 'i'] →
      getCurrentName part subpartName = .ok
        (currentSignalBase deviceType (strToLower part.title ++ strToLower subpartName)
          ++ "[i]")) ∧
    (deviceType ≠ 'd' → deviceType ∉ ['r', 'c', 'l', 'v', 'e', 'f', 'g', 'h', 'i'] →
      ∃ msg, getCurrentName part subpartName = .error (.thrown msg)) := by
  refine ⟨fun hd => ?_, fun hmem => ?_, fun hd hmem => ?_⟩
  · simp only [getCurrentName, hdt, currentSuffix, hd, if_true, reduceIte]
  · have hd : deviceType ≠ 'd' := by
      intro h
      rw [h] at hmem
      simp at hmem
    simp only [getCurrentName, hdt, currentSuffix]
    rw [if_neg hd, if_pos hmem]
  · refine ⟨"Error getting the current of the device.The device type is not recognized.", ?_⟩
    simp only [getCurrentName, hdt, currentSuffix]
    rw [if_neg hd, if_neg hmem]

/-- An LED part whose spice template starts with the diode letter. -/
def ledPart : Part :=
  { title := "LED1", family := "led", spice := "D\x7binstanceTitle\x7d 1 2 LED",
    ledClass := true, props := [("current", "20mA")],
    propDefs := [("current", "A")], pins := [] }

/-- C9 witness: for the concrete LED part the placeholder-derived type
code is `d` and the built signal name is `@dled1[id]`. -/
theorem C9_getCurrentName_witness :
    getCurrentName ledPart "" = .ok "@dled1[id]" := by
  have h := (C9_getCurrentName ledPart "" 'd' rfl (by decide)).1 rfl
  rw [h]
  rfl

/-- The role-pin search loop shared by updateCapacitor, updateDcMotor and
updateMultimeter: every pin whose lowercased shared name equals `name`
overwrites the slot, so the last match wins; `none` means the slot was
never assigned. -/
def lastPinNamed (pins : List ConnectorItem) (name : String) : Option ConnectorItem :=
  pins.foldl (fun acc ci => if strToLower ci.sharedName = name then some ci else acc) none

/-- The smoke decision of Simulator::updateCapacitor: a bidirectional
(non-polarized) family smokes when |v| exceeds the rated maximum, a
polarized one when v exceeds half the rated maximum or is negative. -/
def capacitorRule (bidirectional : Bool) (v maxV : ℚ) : List Overlay :=
  if bidirectional then
    if |v| > maxV then [.smoke] else []
  else
    if v > maxV / 2 ∨ v < 0 then [.smoke] else []

/-- Simulator::updateCapacitor: the "+"/"-" legs are looked up by the
uninitialized-local search loop; if either slot was never assigned the
null check reads an uninitialized pointer (`SimError.undefinedBehavior`); otherwise
the family-keyed smoke rule runs on `voltage(+,-)` and the rated maximum
voltage. -/
def updateCapacitor (convert : Convert) (engine : Engine) (part : Part) :
    Except SimError (List Overlay) :=
  let family := strToLower (getProperty part "family")
  match lastPinNamed part.pins "+", lastPinNamed part.pins "-" with
  | some posLeg, some negLeg =>
    let maxV := getMaxPropValue convert part "voltage"
    let v := calculateVoltage engine posLeg negLeg
    .ok (capacitorRule (qcontains family "bidirectional") v maxV)
  | _, _ => .error (.undefinedBehavior "updateCapacitor null-checks uninitialized pin pointers")

/-- Modelled from the spec: §4.4 and §9 require role-pin absence to be a
well-defined "no verdict" outcome (default-initialized slots), never
undefined state; the found-pins behavior is that of the source. -/
def updateCapacitorSpec (convert : Convert) (engine : Engine) (part : Part) :
    Except SimError (List Overlay) :=
  let family := strToLower (getProperty part "family")
  match lastPinNamed part.pins "+", lastPinNamed part.pins "-" with
  | some posLeg, some negLeg =>
    let maxV := getMaxPropValue convert part "voltage"
    let v := calculateVoltage engine posLeg negLeg
    .ok (capacitorRule (qcontains family "bidirectional") v maxV)
  | _, _ => .ok []

/-- The brightness/smoke sequence of Simulator::updateLED: brightness
`curr / maxCurr` is always requested first; exactly when `curr > maxCurr`
smoke is drawn and the brightness is forced to 0. -/
def ledRule (curr maxCurr : ℚ) : List Overlay :=
  if curr > maxCurr then
    [.brightness (curr / maxCurr), .smoke, .brightness 0]
  else
    [.brightness (curr / maxCurr)]

/-- Simulator::updateLED: for an item of the LED class, measured current
and rated maximum current feed the brightness/smoke rule; a non-LED item
(LED matrix) is left alone. -/
def updateLED (convert : Convert) (engine : Engine) (part : Part) :
    Except SimError (List Overlay) :=
  if part.ledClass then
    match getCurrent engine part "" with
    | .error e => .error e
    | .ok curr =>
      let maxCurr := getMaxPropValue convert part "current"
      .ok (ledRule curr maxCurr)
  else .ok []

/-- Simulator::updateDiode: smoke exactly when measured power exceeds the
rated maximum power. -/
def updateDiode (convert : Convert) (engine : Engine) (part : Part) : List Overlay :=
  let maxPower := getMaxPropValue convert part "power"
  let power := getPower engine part ""
  if power > maxPower then [.smoke] else []

/-- Simulator::updateResistor: smoke exactly when measured power exceeds
the rated maximum power. -/
def updateResistor (convert : Convert) (engine : Engine) (part : Part) : List Overlay :=
  let maxPower := getMaxPropValue convert part "power"
  let power := getPower engine part ""
  if power > maxPower then [.smoke] else []

/-- Simulator::updatePotentiometer: the powers of subparts "A" and "B" are
summed and compared against the rated maximum power. -/
def updatePotentiometer (convert : Convert) (engine : Engine) (part : Part) : List Overlay :=
  let maxPower := getMaxPropValue convert part "power"
  let powerA := getPower engine part "A"
  let powerB := getPower engine part "B"
  if powerA + powerB > maxPower then [.smoke] else []

/-- The short-circuit decision of Simulator::updateBattery: the maximum
tolerable current is ratedVoltage / internalResistance × 0.1 and smoke is
flagged exactly when |current| exceeds it. -/
def batteryRule (voltage resistance current : ℚ) : List Overlay :=
  let safetyMargin : ℚ := 1 / 10
  let maxCurrent := voltage / resistance * safetyMargin
  if |current| > maxCurrent then [.smoke] else []

/-- Simulator::updateBattery: rated voltage and internal resistance come
from the property bag, the delivered current from the engine; the
short-circuit rule decides smoke. -/
def updateBattery (convert : Convert) (engine : Engine) (part : Part) :
    Except SimError (List Overlay) :=
  let voltage := getMaxPropValue convert part "voltage"
  let resistance := getMaxPropValue convert part "internal resistance"
  match getCurrent engine part "" with
  | .error e => .error e
  | .ok current => .ok (batteryRule voltage resistance current)

/-- C5: updateLED's rule always requests brightness curr/maxCurr first and,
exactly when curr strictly exceeds maxCurr, additionally flags smoke and
forces the brightness to 0; rated 0.02 with measured 0.025 gives smoke and
final brightness 0, measured 0.01 gives brightness 0.5 and no smoke. -/
theorem C5_updateLED :
    (∀ curr maxCurr : ℚ,
      ((ledRule curr maxCurr).head? = some (.brightness (curr / maxCurr))) ∧
      (Overlay.smoke ∈ ledRule curr maxCurr ↔ curr > maxCurr) ∧
      (curr > maxCurr → (ledRule curr maxCurr).getLast? = some (.brightness 0)) ∧
      (¬curr > maxCurr →
        (ledRule curr maxCurr).getLast? = some (.brightness (curr / maxCurr)))) ∧
    (∀ convert engine part curr, part.ledClass = true →
      getCurrent engine part "" = .ok curr →
      updateLED convert engine part =
        .ok (ledRule curr (getMaxPropValue convert part "current"))) ∧
    ledRule (25 / 1000) (2 / 100) = [.brightness (5 / 4), .smoke, .brightness 0] ∧
    ledRule (1 / 100) (2 / 100) = [.brightness (1 / 2)] := by
  refine ⟨fun curr maxCurr => ⟨?_, ?_, fun h => ?_, fun h => ?_⟩,
    fun convert engine part curr hled hcurr => ?_, by norm_num [ledRule], by norm_num [ledRule]⟩
  · by_cases h : curr > maxCurr <;> simp [ledRule, h]
  · by_cases h : curr > maxCurr <;> simp [ledRule, h]
  · simp [ledRule, h]
  · simp [ledRule, h]
  · simp [updateLED, hled, hcurr]

/-- C6: with both polarity pins found, a bidirectional capacitor smokes
exactly when |v| exceeds the rated maximum voltage, and a polarized one
exactly when v exceeds half the rated maximum or is negative. -/
theorem C6_updateCapacitor (convert : Convert) (engine : Engine) (part : Part)
    (posLeg negLeg : ConnectorItem)
    (hpos : lastPinNamed part.pins "+" = some posLeg)
    (hneg : lastPinNamed part.pins "-" = some negLeg) :
    updateCapacitor convert engine part =
      .ok (capacitorRule (qcontains (strToLower (getProperty part "family")) "bidirectional")
        (calculateVoltage engine posLeg negLeg) (getMaxPropValue convert part "voltage")) ∧
    (∀ bidirectional v maxV,
      (bidirectional = true →
        (Overlay.smoke ∈ capacitorRule bidirectional v maxV ↔ |v| > maxV)) ∧
      (bidirectional = false →
        (Overlay.smoke ∈ capacitorRule bidirectional v maxV ↔ v > maxV / 2 ∨ v < 0))) := by
  constructor
  · simp [updateCapacitor, hpos, hneg]
  · refine fun bidirectional v maxV => ⟨fun hb => ?_, fun hb => ?_⟩ <;> subst hb
    · by_cases h : |v| > maxV <;> simp [capacitorRule, h]
    · by_cases h : v > maxV / 2 ∨ v < 0 <;> simp [capacitorRule, h]

/-- A polarized electrolytic capacitor rated 16 V whose "+" leg sits on
net 1 and "-" leg on ground. -/
def polarizedCap : Part :=
  { title := "C1", family := "Capacitor", spice := "c\x7binstanceTitle\x7d 1 2 100u",
    ledClass := false,
    props := [("family", "Capacitor"), ("voltage", "16V")],
    propDefs := [("voltage", "V")],
    pins := [⟨"+", "positive", true, 1⟩, ⟨"-", "negative", true, 0⟩] }

/-- A conversion table for the concrete inputs used in witnesses. -/
def convertTable : Convert := fun s sym =>
  if s = "16V" ∧ sym = "V" then 16
  else if s = "9" ∧ sym = "V" then 9
  else if s = "1" ∧ sym = "Ω" then 1
  else 0

/-- An engine whose only known vector is `v(1)` with first sample −0.5. -/
def engineNegHalf : Engine := fun name => if name = voltageVecName 1 then [-(1 / 2)] else []

/-- C6 witness: the polarized 16 V capacitor with measured reverse voltage
−0.5 smokes (negative triggers regardless of magnitude vs. half-max). -/
theorem C6_updateCapacitor_witness :
    updateCapacitor convertTable engineNegHalf polarizedCap = .ok [Overlay.smoke] := by
  have h := (C6_updateCapacitor convertTable engineNegHalf polarizedCap
    ⟨"+", "positive", true, 1⟩ ⟨"-", "negative", true, 0⟩ (by decide) (by decide)).1
  rw [h]
  have hfam : qcontains (strToLower (getProperty polarizedCap "family")) "bidirectional"
      = false := by decide
  have hmax : getMaxPropValue convertTable polarizedCap "voltage" = 16 := rfl
  have hv : calculateVoltage engineNegHalf
      ⟨"+", "positive", true, 1⟩ ⟨"-", "negative", true, 0⟩ = -(1 / 2) := by
    simp [calculateVoltage, engineNegHalf, getVectorValueOrDefault]
  rw [hfam, hmax, hv]
  norm_num [capacitorRule]

/-- C7: updateBattery's rule takes the maximum tolerable current to be
ratedVoltage / internalResistance × 0.1 and flags smoke exactly when
|measured current| strictly exceeds it; rated 9 V at 1 Ω gives the bound
0.9, measured 1.0 smokes and measured 0.5 does not. -/
theorem C7_updateBattery :
    (∀ voltage resistance current : ℚ,
      Overlay.smoke ∈ batteryRule voltage resistance current ↔
        |current| > voltage / resistance * (1 / 10)) ∧
    (∀ convert engine part current,
      getCurrent engine part "" = .ok current →
      updateBattery convert engine part =
        .ok (batteryRule (getMaxPropValue convert part "voltage")
          (getMaxPropValue convert part "internal resistance") current)) ∧
    (9 : ℚ) / 1 * (1 / 10) = 9 / 10 ∧
    batteryRule 9 1 1 = [.smoke] ∧
    batteryRule 9 1 (1 / 2) = [] := by
  refine ⟨fun voltage resistance current => ?_,
    fun convert engine part current hcurr => ?_, by norm_num,
    by norm_num [batteryRule, abs_of_nonneg], by norm_num [batteryRule, abs_of_nonneg]⟩
  · by_cases h : |current| > voltage / resistance * (1 / 10) <;> simp [batteryRule, h]
  · simp [updateBattery, hcurr]

/-- The rotation/smoke decision of Simulator::updateDcMotor: smoke when
|v| exceeds the rated maximum; otherwise a rotation overlay (clockwise
for positive v) when |v| reaches the rated minimum. -/
def motorRule (v maxV minV : ℚ) : List Overlay :=
  if |v| > maxV then [.smoke]
  else if |v| ≥ minV then (if v > 0 then [.rotateCW] else [.rotateCCW])
  else []

/-- Simulator::updateDcMotor: rated bounds are read first, then the
"pin 1"/"pin 2" terminals are looked up by the uninitialized-local search
loop (absence means the null check reads an uninitialized pointer), and
the voltage across them drives the rotation/smoke rule. -/
def updateDcMotor (convert : Convert) (engine : Engine) (part : Part) :
    Except SimError (List Overlay) :=
  let maxV := getMaxPropValue convert part "voltage (max)"
  let minV := getMaxPropValue convert part "voltage (min)"
  match lastPinNamed part.pins "pin 1", lastPinNamed part.pins "pin 2" with
  | some terminal1, some terminal2 =>
    .ok (motorRule (calculateVoltage engine terminal1 terminal2) maxV minV)
  | _, _ => .error (.undefinedBehavior "updateDcMotor null-checks uninitialized pin pointers")

/-- Modelled from the spec: §4.4 and §9 require "pin 1"/"pin 2" absence to
be a well-defined "no verdict" outcome; found-pins behavior as the source. -/
def updateDcMotorSpec (convert : Convert) (engine : Engine) (part : Part) :
    Except SimError (List Overlay) :=
  let maxV := getMaxPropValue convert part "voltage (max)"
  let minV := getMaxPropValue convert part "voltage (min)"
  match lastPinNamed part.pins "pin 1", lastPinNamed part.pins "pin 2" with
  | some terminal1, some terminal2 =>
    .ok (motorRule (calculateVoltage engine terminal1 terminal2) maxV minV)
  | _, _ => .ok []

/-- The role-pin search of Simulator::updateIRSensor, keyed by shared
description (two accepted spellings per role), last match winning. -/
def lastPinDescribed (pins : List ConnectorItem) (d1 d2 : String) : Option ConnectorItem :=
  pins.foldl
    (fun acc ci =>
      if strToLower ci.sharedDescription = d1 ∨ strToLower ci.sharedDescription = d2 then some ci
      else acc)
    none

/-- Simulator::updateIRSensor: VCC/GND/OUT are looked up by shared
description with uninitialized locals; the supply voltage and the output
current (collector current of `q<title>` for a line sensor, subpart "a"
current otherwise) drive the smoke decision. -/
def updateIRSensor (convert : Convert) (engine : Engine) (part : Part) :
    Except SimError (List Overlay) :=
  let maxV := getMaxPropValue convert part "voltage (max)"
  let _minV := getMaxPropValue convert part "voltage (min)"
  let maxIout := getMaxPropValue convert part "max output current"
  match lastPinDescribed part.pins "vcc" "supply voltage",
      lastPinDescribed part.pins "gnd" "ground",
      lastPinDescribed part.pins "out" "output voltage" with
  | some vcc, some gnd, some _out =>
    let v := calculateVoltage engine vcc gnd
    let current :=
      if qcontains part.family "line sensor" then
        getTransistorCurrent engine ("q" ++ strToLower part.title) .collector
      else
        getCurrent engine part "a"
    match current with
    | .error e => .error e
    | .ok i => .ok (if v > maxV ∨ v < 0 ∨ |i| > maxIout then [.smoke] else [])
  | _, _, _ => .error (.undefinedBehavior "updateIRSensor null-checks uninitialized pin pointers")

/-- Padding with zeros on the left up to `len` characters. -/
def padZeros (s : String) (len : Nat) : String :=
  (⟨List.replicate (len - s.length) '0'⟩ : String) ++ s

/-- Fixed-point rendering of an already-scaled-and-rounded integer with
`p` digits after the decimal point (no point when `p = 0`). -/
def formatFixedInt (scaled : ℤ) (p : Nat) : String :=
  let sign := if scaled < 0 then "-" else ""
  let m := scaled.natAbs
  if p = 0 then sign ++ Nat.repr m
  else sign ++ Nat.repr (m / 10 ^ p) ++ "." ++ padZeros (Nat.repr (m % 10 ^ p)) p

/-- Fixed-point decimal rendering of a rational, `printf %f` style:
`prec` digits after the point (clamped below at 0), round to nearest. -/
def formatFixed (q : ℚ) (prec : Int) : String :=
  formatFixedInt (round (q * (10 : ℚ) ^ prec.toNat)) prec.toNat

/-- Modelled from the spec: the engineering-prefix choice of
`TextUtils::convertToPowerPrefix` (§4.1; the implementation is outside
this repository's source set) — the largest standard prefix whose power
of ten does not exceed |v|, bottoming out at pico. -/
def pickPowerPfx (v : ℚ) : Int × String :=
  if |v| ≥ (10 : ℚ) ^ (12 : Int) then (12, "T")
  else if |v| ≥ (10 : ℚ) ^ (9 : Int) then (9, "G")
  else if |v| ≥ (10 : ℚ) ^ (6 : Int) then (6, "M")
  else if |v| ≥ (10 : ℚ) ^ (3 : Int) then (3, "k")
  else if |v| ≥ 1 then (0, "")
  else if |v| ≥ (10 : ℚ) ^ (-3 : Int) then (-3, "m")
  else if |v| ≥ (10 : ℚ) ^ (-6 : Int) then (-6, "µ")
  else if |v| ≥ (10 : ℚ) ^ (-9 : Int) then (-9, "n")
  else (-12, "p")

/-- Modelled from the spec: `TextUtils::convertToPowerPrefix(value, 'f',
precision)` renders the value scaled into the chosen prefix range in
fixed-point and appends the prefix letter; zero is rendered without a
prefix (the source comment "Show 0.000 instead of 0.000p" relies on
this). -/
def convertToPowerPfx (value : ℚ) (prec : Int) : String :=
  if value = 0 then formatFixedInt 0 prec.toNat
  else
    let ep := pickPowerPfx value
    formatFixed (value / (10 : ℚ) ^ ep.1) prec ++ ep.2

/-- QString character replacement (the `'k' → 'K'` display step). -/
def replaceChar (s : String) (a b : Char) : String :=
  ⟨s.toList.map (fun c => if c = a then b else c)⟩

/-- The 7-segment padding of Simulator::updateMultimeterScreen(QString):
decimal points occupy no screen cell, so the message length is counted
without them and the message is left-padded with spaces up to 5 cells. -/
def padScreen (msg : String) : String :=
  let aux : String := ⟨msg.toList.filter (· ≠ '.')⟩
  if aux.length < 5 then (⟨List.replicate (5 - aux.length) ' '⟩ : String) ++ msg else msg

/-- Simulator::updateMultimeterScreen(double): near-zero snap to exactly
0, a first render at precision 6 to locate the decimal point, a second
render at precision `4 − indexOf('.')`, uppercase K, then 7-segment
padding. -/
def displayNumber (number : ℚ) : String :=
  let number := if |number| < 1 / 10 ^ 12 then 0 else number
  let textToDisplay := convertToPowerPfx number 6
  let indexPoint : Int :=
    match textToDisplay.toList.findIdx? (· = '.') with
    | some i => (i : Int)
    | none => -1
  let textToDisplay2 := convertToPowerPfx number (4 - indexPoint)
  padScreen (replaceChar textToDisplay2 'k' 'K')

/-- Simulator::updateMultimeter: COM/V/A probes are looked up by shared
name into nullptr-initialized locals (absence is a well-defined early
return); all three probes wired is "ERR" regardless of variant; then the
variant decides between voltmeter, ammeter and ohmmeter behavior. -/
def updateMultimeter (_convert : Convert) (engine : Engine) (part : Part) :
    Except SimError (List Overlay) :=
  let variant := strToLower (getProperty part "variant")
  match lastPinNamed part.pins "com probe", lastPinNamed part.pins "v probe",
      lastPinNamed part.pins "a probe" with
  | some comProbe, some vProbe, some aProbe =>
    if comProbe.wired && vProbe.wired && aProbe.wired then
      .ok [.screen (padScreen "ERR")]
    else if variant = "voltmeter (dc)" then
      if aProbe.wired then .ok [.screen (padScreen "ERR")]
      else if comProbe.wired && vProbe.wired then
        .ok [.screen (displayNumber (calculateVoltage engine vProbe comProbe))]
      else .ok []
    else if variant = "ammeter (dc)" then
      if vProbe.wired then .ok [.screen (padScreen "ERR")]
      else
        match getCurrent engine part "" with
        | .error e => .error e
        | .ok current => .ok [.screen (displayNumber current)]
    else if variant = "ohmmeter" then
      if aProbe.wired then .ok [.screen (padScreen "ERR")]
      else
        let v := calculateVoltage engine vProbe comProbe
        match getCurrent engine part "" with
        | .error e => .error e
        | .ok a => .ok [.screen (displayNumber |v / a|)]
    else .ok []
  | _, _, _ => .ok []

/-- The engineering-prefix choice for 3.3 is the empty (unit) prefix. -/
theorem pickPowerPfx_threePointThree : pickPowerPfx (33 / 10) = (0, "") := by
  norm_num [pickPowerPfx, abs_of_nonneg]

/-- Unfolding of `convertToPowerPfx` away from zero. -/
theorem convertToPowerPfx_ne_zero (value : ℚ) (prec : Int) (h : ¬value = 0) :
    convertToPowerPfx value prec =
      formatFixed (value / (10 : ℚ) ^ (pickPowerPfx value).1) prec ++ (pickPowerPfx value).2 := by
  simp only [convertToPowerPfx, if_neg h]

/-- Rendering 3.3 at precision 6. -/
theorem convertToPowerPfx_33_6 : convertToPowerPfx (33 / 10) 6 = "3.300000" := by
  rw [convertToPowerPfx_ne_zero _ _ (by norm_num), pickPowerPfx_threePointThree]
  rw [formatFixed]
  rw [show round ((33 : ℚ) / 10 / (10 : ℚ) ^ ((0 : Int)) * (10 : ℚ) ^ ((6 : Int).toNat))
      = (3300000 : ℤ) from by
    rw [round_eq]
    show ⌊(33 : ℚ) / 10 / (10 : ℚ) ^ ((0 : Int)) * (10 : ℚ) ^ (6 : Nat) + 1 / 2⌋ = (3300000 : ℤ)
    rw [Int.floor_eq_iff] <;> norm_num]
  decide

/-- Rendering 3.3 at precision 3. -/
theorem convertToPowerPfx_33_3 : convertToPowerPfx (33 / 10) 3 = "3.300" := by
  rw [convertToPowerPfx_ne_zero _ _ (by norm_num), pickPowerPfx_threePointThree]
  rw [formatFixed]
  rw [show round ((33 : ℚ) / 10 / (10 : ℚ) ^ ((0 : Int)) * (10 : ℚ) ^ ((3 : Int).toNat))
      = (3300 : ℤ) from by
    rw [round_eq]
    show ⌊(33 : ℚ) / 10 / (10 : ℚ) ^ ((0 : Int)) * (10 : ℚ) ^ (3 : Nat) + 1 / 2⌋ = (3300 : ℤ)
    rw [Int.floor_eq_iff] <;> norm_num]
  decide

/-- The decimal point of "3.300000" sits at index 1. -/
theorem findIdxPoint_33 :
    ("3.300000".toList.findIdx? (fun c => decide (c = '.'))) = some 1 := by decide

/-- A 3.3 volt reading is displayed as the padded fixed-width "3.300". -/
theorem displayNumber_threePointThree : displayNumber (33 / 10) = " 3.300" := by
  have hc : ¬(|(33 : ℚ) / 10| < 1 / 10 ^ 12) := by norm_num [abs_of_nonneg]
  simp only [displayNumber, if_neg hc, convertToPowerPfx_33_6, findIdxPoint_33]
  norm_num [convertToPowerPfx_33_3]
  decide

/-- C8: with all three probes found, a multimeter whose COM, V and A
probes are simultaneously wired displays "ERR" regardless of variant; in
DC-voltmeter mode a wired A probe displays "ERR", and otherwise COM and V
both wired displays V(Vprobe) − V(COMprobe) as a fixed-width padded
reading — 3.3 volts renders as the padded "3.300". -/
theorem C8_updateMultimeter (convert : Convert) (engine : Engine) (part : Part)
    (comProbe vProbe aProbe : ConnectorItem)
    (hcom : lastPinNamed part.pins "com probe" = some comProbe)
    (hvp : lastPinNamed part.pins "v probe" = some vProbe)
    (hap : lastPinNamed part.pins "a probe" = some aProbe) :
    (comProbe.wired = true → vProbe.wired = true → aProbe.wired = true →
      updateMultimeter convert engine part = .ok [.screen (padScreen "ERR")]) ∧
    (strToLower (getProperty part "variant") = "voltmeter (dc)" →
      ¬(comProbe.wired = true ∧ vProbe.wired = true ∧ aProbe.wired = true) →
      aProbe.wired = true →
      updateMultimeter convert engine part = .ok [.screen (padScreen "ERR")]) ∧
    (strToLower (getProperty part "variant") = "voltmeter (dc)" →
      aProbe.wired = false → comProbe.wired = true → vProbe.wired = true →
      updateMultimeter convert engine part =
        .ok [.screen (displayNumber (calculateVoltage engine vProbe comProbe))]) ∧
    padScreen "ERR" = "  ERR" ∧
    displayNumber (33 / 10) = " 3.300" := by
  refine ⟨fun h1 h2 h3 => ?_, fun hvar hne haw => ?_, fun hvar haw hcw hvw => ?_,
    by decide, displayNumber_threePointThree⟩
  · simp [updateMultimeter, hcom, hvp, hap, h1, h2, h3]
  · cases hcw : comProbe.wired <;> cases hvw : vProbe.wired <;>
      simp_all [updateMultimeter, hcom, hvp, hap]
  · simp [updateMultimeter, hcom, hvp, hap, hvar, haw, hcw, hvw]

/-- A DC voltmeter with COM on ground, V on net 1, A unwired. -/
def voltmeterPart : Part :=
  { title := "Mult1", family := "multimeter", spice := "",
    ledClass := false,
    props := [("variant", "Voltmeter (DC)")],
    propDefs := [],
    pins := [⟨"COM Probe", "com", true, 0⟩, ⟨"V Probe", "v", true, 1⟩,
             ⟨"A Probe", "a", false, 2⟩] }

/-- An engine whose only known vector is `v(1)` with first sample 3.3. -/
def engine33 : Engine := fun name => if name = voltageVecName 1 then [33 / 10] else []

/-- C8 witness: the concrete DC voltmeter reading 3.3 V displays the
padded "3.300". -/
theorem C8_updateMultimeter_witness :
    updateMultimeter convert0 engine33 voltmeterPart = .ok [Overlay.screen " 3.300"] := by
  have h := (C8_updateMultimeter convert0 engine33 voltmeterPart
    ⟨"COM Probe", "com", true, 0⟩ ⟨"V Probe", "v", true, 1⟩ ⟨"A Probe", "a", false, 2⟩
    (by decide) (by decide) (by decide)).2.2.1 (by decide) rfl rfl rfl
  rw [h]
  have hcv : calculateVoltage engine33 ⟨"V Probe", "v", true, 1⟩ ⟨"COM Probe", "com", true, 0⟩
      = 33 / 10 := by
    simp [calculateVoltage, engine33, getVectorValueOrDefault]
  rw [hcv, displayNumber_threePointThree]

/-- A capacitor whose pins are named "anode"/"cathode", so no "+"/"-"
role pin exists. -/
def badCapacitor : Part :=
  { title := "C2", family := "Capacitor", spice := "c\x7binstanceTitle\x7d 1 2 1u",
    ledClass := false, props := [("family", "Capacitor")], propDefs := [],
    pins := [⟨"anode", "", true, 1⟩, ⟨"cathode", "", true, 2⟩] }

/-- A DC motor missing its "pin 2" role pin. -/
def badMotor : Part :=
  { title := "M1", family := "DC Motor", spice := "", ledClass := false,
    props := [], propDefs := [], pins := [⟨"pin 1", "", true, 1⟩] }

/-- C10: on a capacitor without "+"/"-" pins (and a DC motor without
"pin 1"/"pin 2") the source's null check reads an uninitialized local pin
pointer — undefined behavior, not the well-defined "no verdict" outcome
the specification requires (and which the spec-modelled variants below
produce). -/
theorem C10_uninitializedRolePins :
    updateCapacitor convert0 engine0 badCapacitor =
      .error (.undefinedBehavior "updateCapacitor null-checks uninitialized pin pointers") ∧
    updateDcMotor convert0 engine0 badMotor =
      .error (.undefinedBehavior "updateDcMotor null-checks uninitialized pin pointers") ∧
    updateCapacitorSpec convert0 engine0 badCapacitor = .ok [] ∧
    updateDcMotorSpec convert0 engine0 badMotor = .ok [] := by
  refine ⟨rfl, rfl, rfl, rfl⟩

/-- The family-substring dispatch of the per-instance loop in
Simulator::simulate (lines 358–395): the first matching family substring
routes the instance to its rule; instances matching none are left
un-diagnosed.  Errors of the rules propagate — the loop body has no
try/catch. -/
def diagnosePart (convert : Convert) (engine : Engine) (part : Part) :
    Except SimError (List Overlay) :=
  let family := strToLower part.family
  if qcontains family "capacitor" then updateCapacitor convert engine part
  else if qcontains family "diode" then .ok (updateDiode convert engine part)
  else if qcontains family "led" then updateLED convert engine part
  else if qcontains family "resistor" then .ok (updateResistor convert engine part)
  else if qcontains family "multimeter" then updateMultimeter convert engine part
  else if qcontains family "dc motor" then updateDcMotor convert engine part
  else if qcontains family "line sensor" || qcontains family "distance sensor" then
    updateIRSensor convert engine part
  else if qcontains family "battery" || qcontains family "voltage source" then
    updateBattery convert engine part
  else if qcontains family "potentiometer" || qcontains family "sparkfun trimpot" then
    .ok (updatePotentiometer convert engine part)
  else .ok []

/-- The `foreach (ItemBase * part, itemBases)` diagnosis loop of
Simulator::simulate: with no try/catch in the loop, the first error a
rule raises propagates out of the loop and the remaining instances are
never diagnosed. -/
def simulateParts (convert : Convert) (engine : Engine) :
    List Part → Except SimError (List (String × List Overlay))
  | [] => .ok []
  | part :: rest =>
    match diagnosePart convert engine part with
    | .error e => .error e
    | .ok overlays =>
      match simulateParts convert engine rest with
      | .error e => .error e
      | .ok verdicts => .ok ((part.title, overlays) :: verdicts)

/-- Modelled from the spec: §7 requires per-instance query errors to skip
that instance's verdict and continue with the remaining instances. -/
def simulatePartsSpec (convert : Convert) (engine : Engine) :
    List Part → List (String × List Overlay)
  | [] => []
  | part :: rest =>
    match diagnosePart convert engine part with
    | .error _ => simulatePartsSpec convert engine rest
    | .ok overlays => (part.title, overlays) :: simulatePartsSpec convert engine rest

/-- A battery whose spice template yields the unrecognized type code
`x`, so its current query throws. -/
def badBattery : Part :=
  { title := "BAT1", family := "battery", spice := "x\x7binstanceTitle\x7d 1 2 9",
    ledClass := false, props := [("voltage", "9"), ("internal resistance", "1")],
    propDefs := [], pins := [] }

/-- A resistor whose diagnosis succeeds (no property set, no power drawn). -/
def okResistor : Part :=
  { title := "R1", family := "resistor", spice := "r\x7binstanceTitle\x7d 1 2 100",
    ledClass := false, props := [], propDefs := [], pins := [] }

/-- C2: a device-query error while diagnosing one instance aborts the
whole diagnosis loop — the remaining instances are never diagnosed (and
the throw escapes `Simulator::simulate` uncaught).  Diagnosing the
unrecognized-type battery first leaves the healthy resistor without a
verdict, although the resistor alone diagnoses fine and the spec-modelled
skip-and-continue loop still produces its verdict. -/
theorem C2_queryErrorAbortsLoop :
    simulateParts convert0 engine0 [badBattery, okResistor] =
      .error (.thrown
        "Error getting the current of the device.The device type is not recognized.") ∧
    simulateParts convert0 engine0 [okResistor] = .ok [("R1", [])] ∧
    simulatePartsSpec convert0 engine0 [badBattery, okResistor] = [("R1", [])] := by
  have hbad : diagnosePart convert0 engine0 badBattery =
      .error (.thrown
        "Error getting the current of the device.The device type is not recognized.") := by
    rfl
  have hpow : getPower engine0 okResistor "" = 0 := rfl
  have hmaxp : getMaxPropValue convert0 okResistor "power" = dblMax := rfl
  have hres : updateResistor convert0 engine0 okResistor = [] := by
    simp only [updateResistor, hpow, hmaxp]
    rw [if_neg (by norm_num [dblMax])]
  have hok : diagnosePart convert0 engine0 okResistor = .ok [] := by
    rw [show diagnosePart convert0 engine0 okResistor
        = .ok (updateResistor convert0 engine0 okResistor) from rfl, hres]
  refine ⟨?_, ?_, ?_⟩
  · simp only [simulateParts, hbad]
  · simp only [simulateParts, hok]
    rfl
  · simp only [simulatePartsSpec, hbad, hok]
    rfl

/-- The fixed 3000 ms budget of the wait loop in Simulator::simulate. -/
def simTimeOut : Nat := 3000

/-- The sleep-poll loop `while (isBGThreadRunning() && elapsed <
simTimeOut) elapsed++` as a function of the engine's running state at
each poll: the final elapsed count is the first poll at which the run is
seen finished, or the budget when it never is. -/
def waitForBG (running : Nat → Bool) : Nat :=
  ((List.range simTimeOut).find? (fun t => !(running t))).getD simTimeOut

/-- The orchestration state the timeout path leaves behind: the engine
commands issued after loading, the overlays present (sim items), the
dimming applied, and the error that escaped, if any. -/
structure SessionResult where
  commands : List String
  overlays : List (String × List Overlay)
  dimmed : List String
  error : Option SimError
deriving DecidableEq

/-- The message of the timeout throw in Simulator::simulate. -/
def timeoutMsg : String :=
  "The spice simulator did not finish after 3000 ms. Aborting simulation."

/-- The tail of Simulator::simulate from the `bg_run` command on:
previous-session sim items are removed and non-simulated parts greyed out
while the engine runs; then the sleep-poll waits.  On timeout a `bg_halt`
is issued and a runtime error is thrown — nothing clears the dimming
already applied.  Otherwise a fatal engine error clears overlays and
returns, and a clean completion runs the diagnosis loop (whose own errors
escape). -/
def simulateRun (convert : Convert) (engine : Engine) (running : Nat → Bool)
    (fatalError : Bool) (parts : List Part) (nonSimParts : List String) : SessionResult :=
  let base : SessionResult :=
    { commands := ["bg_run"], overlays := [], dimmed := nonSimParts, error := none }
  let elapsedTime := waitForBG running
  if elapsedTime ≥ simTimeOut then
    { base with commands := base.commands ++ ["bg_halt"], error := some (.thrown timeoutMsg) }
  else if fatalError then
    { base with overlays := [] }
  else
    match simulateParts convert engine parts with
    | .ok verdicts => { base with overlays := verdicts }
    | .error e => { base with error := some e }

/-- When the run never finishes inside the budget, the wait loop exhausts
it. -/
theorem waitForBG_timeout (running : Nat → Bool)
    (h : ∀ t, t < simTimeOut → running t = true) : waitForBG running = simTimeOut := by
  unfold waitForBG
  rw [List.find?_eq_none.mpr]
  · rfl
  · intro t ht
    rw [List.mem_range] at ht
    simp [h t ht]

/-- C4 counterexample: a session whose engine never reports completion
within the budget issues `bg_halt` and raises the timeout error, but the
grey-out dimming applied to the non-simulated part before the wait is
still present in the aborted session's state. -/
theorem C4_counterexample :
    (simulateRun convert0 engine0 (fun _ => true) false [] ["D1"]).error =
      some (.thrown timeoutMsg) ∧
    (simulateRun convert0 engine0 (fun _ => true) false [] ["D1"]).dimmed = ["D1"] ∧
    ["D1"] ≠ ([] : List String) := by
  have hw : waitForBG (fun _ => true) = simTimeOut :=
    waitForBG_timeout _ (fun _ _ => rfl)
  refine ⟨?_, ?_, by simp⟩ <;> simp [simulateRun, hw]

/-- C4 amended: if the engine's background run has not completed within
the 3000 ms budget, the orchestrator issues `bg_halt` and raises a
timeout error (a thrown exception `simulate` does not catch); overlays of
the unfinished run do not exist and previous ones were already cleared,
but the grey-out dimming applied before the wait remains in place. -/
theorem C4_simulateRun_timeout (convert : Convert) (engine : Engine) (running : Nat → Bool)
    (fatalError : Bool) (parts : List Part) (nonSimParts : List String)
    (h : ∀ t, t < simTimeOut → running t = true) :
    simulateRun convert engine running fatalError parts nonSimParts =
      { commands := ["bg_run", "bg_halt"], overlays := [],
        dimmed := nonSimParts, error := some (.thrown timeoutMsg) } := by
  have hw : waitForBG running = simTimeOut := waitForBG_timeout _ h
  simp [simulateRun, hw]

/-- C4 witness: the amended timeout behavior at a concrete never-finishing
engine run with one non-simulated part. -/
theorem C4_simulateRun_timeout_witness :
    simulateRun convert0 engine0 (fun _ => true) true [okResistor] ["D1"] =
      { commands := ["bg_run", "bg_halt"], overlays := [],
        dimmed := ["D1"], error := some (.thrown timeoutMsg) } :=
  C4_simulateRun_timeout convert0 engine0 (fun _ => true) true [okResistor] ["D1"]
    (fun _ _ => rfl)

end Fritzing
